import Mathlib

/-!
# Entry point of the Google host plugin (`plugins/boundary/mains/google/main.go`)

The Go program is

```go
func main() {
	if err := hp.ServePlugin(new(google.GooglePlugin)); err != nil {
		fmt.Println("Error serving plugin", err)
		os.Exit(1)
	}
	os.Exit(0)
}
```

It is embedded as a program in a small monad of Go statements: a statement
transforms the process state and either completes or terminates the process
through `os.Exit`.  Every primitive the program uses (`new`, the call of the
serving routine, `fmt.Println`, `os.Exit`) records the action it performs in a
trace, so that ordering and multiplicity of the actions of `main` can be
stated.  The serving routine `hp.ServePlugin` and the type
`google.GooglePlugin` come from other modules; they are parameters of the
embedding.
-/

namespace GooglePluginMain

/-! ## Data model -/

/-- A pointer is an index into the heap of allocated objects. -/
abbrev Ptr := Nat

/-- A non-nil Go `error` value: its dynamic type and the text that `fmt`
prints for it under the default format (the result of its `Error` method).
The nil error is `none : Option GoError`. -/
structure GoError where
  dynType : String
  text : String
deriving DecidableEq, Repr

/-- The two output streams of the process. -/
inductive Stream where
  | stdout
  | stderr
deriving DecidableEq, Repr

/-- Process state visible to `main` and to the serving routine.  `P` is the
type `google.GooglePlugin`. -/
structure World (P : Type) where
  args : List String
  environ : List (String × String)
  heap : List P
  stdout : String
  stderr : String
deriving DecidableEq, Repr

/-- Actions performed by the statements of `main`. -/
inductive Action (P : Type) where
  /-- The expression `new(T)` allocated address `p`, initialised to `v`. -/
  | alloc (p : Ptr) (v : P)
  /-- The call `hp.ServePlugin(arg)` was made and returned `result`. -/
  | call (arg : Ptr) (result : Option GoError)
  /-- One `Write` of `bytes` on stream `s`. -/
  | write (s : Stream) (bytes : String)
  /-- The statement `os.Exit(code)` ran. -/
  | exit (code : Int)
deriving DecidableEq, Repr

/-- State threaded through the statements: the world and the actions so far. -/
structure Proc (P : Type) where
  world : World P
  trace : List (Action P)

/-- Go statements: a state transformer that either completes with a value
(`Except.ok`) or ends the process with an exit status (`Except.error`). -/
abbrev Go (P : Type) (α : Type) := ExceptT Int (StateM (Proc P)) α

/-- The serving routine `hp.ServePlugin`, an external collaborator: called
with the pointer to the implementation, it acts on the world (it may write the
handshake, serve calls, mutate the heap) and returns `nil` or an error. -/
abbrev ServeRoutine (P : Type) := Ptr → World P → World P × Option GoError

/-! ## Primitives -/

/-- The world after `new(T)`: a fresh cell holding the zero value of `T` is
appended to the heap. -/
def World.alloc {P : Type} (zero : P) (w : World P) : World P :=
  { w with heap := w.heap ++ [zero] }

/-- The builtin `new(T)`: allocates a zero-valued `T`, returns its address. -/
def new {P : Type} (zero : P) : Go P Ptr := fun s =>
  let p := s.world.heap.length
  (.ok p, { world := s.world.alloc zero, trace := s.trace ++ [.alloc p zero] })

/-- The call `hp.ServePlugin(p)`. -/
def callServePlugin {P : Type} (ServePlugin : ServeRoutine P) (p : Ptr) :
    Go P (Option GoError) := fun s =>
  let r := ServePlugin p s.world
  (.ok r.2, { world := r.1, trace := s.trace ++ [.call p r.2] })

/-- The text `fmt.Sprintln` builds from already formatted operands: spaces
are always added between operands and a newline is appended. -/
def fmt.Sprintln (operands : List String) : String :=
  " ".intercalate operands ++ "\n"

/-- `(*os.File).Write` on one of the standard streams. -/
def World.write {P : Type} (s : Stream) (bytes : String) (w : World P) : World P :=
  match s with
  | .stdout => { w with stdout := w.stdout ++ bytes }
  | .stderr => { w with stderr := w.stderr ++ bytes }

/-- `fmt.Println(operands...)`: formats with `Sprintln` and performs a single
`Write` on standard output (its results are discarded by `main`). -/
def fmt.Println {P : Type} (operands : List String) : Go P Unit := fun s =>
  let line := fmt.Sprintln operands
  (.ok (), { world := s.world.write .stdout line,
             trace := s.trace ++ [.write .stdout line] })

/-- `os.Exit(code)`: the process ends at once with the given status. -/
def os.Exit {P : Type} (code : Int) : Go P Unit := fun s =>
  (.error code, { s with trace := s.trace ++ [.exit code] })

/-! ## The program -/

/-- The function `main` of `main.go`. -/
def main {P : Type} (zero : P) (ServePlugin : ServeRoutine P) : Go P Unit := do
  let err ← callServePlugin ServePlugin (← new zero)
  if let some e := err then
    fmt.Println ["Error serving plugin", e.text]
    os.Exit 1
  os.Exit 0

/-- What a finished process leaves behind. -/
structure Outcome (P : Type) where
  status : Int
  world : World P
  trace : List (Action P)

/-- Runs a program as the body of the process started in world `w`.  When
the body returns without calling `os.Exit` the Go runtime exits with 0. -/
def run {P : Type} (prog : Go P Unit) (w : World P) : Outcome P :=
  let r := prog { world := w, trace := [] }
  { status := match r.1 with
      | .error code => code
      | .ok () => 0
    world := r.2.world
    trace := r.2.trace }

/-- The writes among a list of actions, in order. -/
def writes {P : Type} : List (Action P) → List (Stream × String)
  | [] => []
  | .write s b :: rest => (s, b) :: writes rest
  | _ :: rest => writes rest

/-- The diagnostic line for error `e`. -/
def diagnostic (e : GoError) : String :=
  "Error serving plugin" ++ " " ++ e.text ++ "\n"

/-- The allocations among a list of actions, in order. -/
def allocs {P : Type} : List (Action P) → List (Ptr × P)
  | [] => []
  | .alloc p v :: rest => (p, v) :: allocs rest
  | _ :: rest => allocs rest

/-- The calls of the serving routine among a list of actions, in order. -/
def calls {P : Type} : List (Action P) → List (Ptr × Option GoError)
  | [] => []
  | .call p r :: rest => (p, r) :: calls rest
  | _ :: rest => calls rest

/-! ## Sample runs -/

/-- An initial world: no heap objects, nothing written yet. -/
def sampleWorld : World Unit :=
  { args := ["boundary-plugin-google"], environ := [("HOME", "/root")],
    heap := [], stdout := "", stderr := "" }

/-- A world of another process: other arguments, environment and heap. -/
def otherWorld : World Unit :=
  { args := ["plugin", "-v"], environ := [], heap := [(), ()], stdout := "", stderr := "" }

/-- The error of a listener that was closed before a client connected. -/
def listenerClosed : GoError :=
  { dynType := "*errors.errorString", text := "listener closed" }

/-- An error of another dynamic type with the same text. -/
def listenerClosedWrapped : GoError :=
  { dynType := "*fmt.wrapError", text := "listener closed" }

/-- A serving routine that fails before the handshake. -/
def serveUnavailable : ServeRoutine Unit := fun _ w => (w, some listenerClosed)

/-- A serving routine that fails at once with an error of another type. -/
def serveUnavailableWrapped : ServeRoutine Unit := fun _ w => (w, some listenerClosedWrapped)

/-- A serving routine that writes a handshake line and shuts down cleanly. -/
def serveClean : ServeRoutine Unit := fun _ w =>
  (w.write .stdout "1|1|unix|/tmp/plugin4242|grpc\n", none)

/-- A serving routine that writes a handshake line and then fails. -/
def serveBroken : ServeRoutine Unit := fun _ w =>
  (w.write .stdout "1|1|unix|/tmp/plugin4242|grpc\n",
    some { dynType := "*net.OpError", text := "accept unix /tmp/plugin4242: broken" })

/-! ## Capability registry of the serving routine

The serving routine is not part of `main.go`; its registry is described by the
specification only (component 4.1 and the data model). -/

/-- Modelled from the spec: a callable method of a capability, missing from
the sources; "a pure function of (request, cancellation context) to (response
or error)", with opaque bytes as request and response. -/
abbrev Method := List Nat → Bool → Except String (List Nat)

/-- Modelled from the spec: the Capability Object, missing from the sources;
"a name (string identifier of the capability set it implements), and a set of
callable methods". -/
structure CapabilityObject where
  name : String
  methods : List (String × Method)

/-- Modelled from the spec: the failures of the Capability Registry, missing
from the sources. -/
inductive RegistryError where
  | DuplicateCapability
  | UnknownCapability
  | UnknownMethod
deriving DecidableEq, Repr

/-- Modelled from the spec: the binding table of the Capability Registry,
missing from the sources; "a binding from capability names to an object
implementing that capability". -/
structure CapabilityRegistry where
  bindings : List (String × CapabilityObject)

/-- Modelled from the spec: the object bound to a capability name in the
binding table, missing from the sources. -/
def CapabilityRegistry.bound (reg : CapabilityRegistry) (capabilityName : String) :
    Option CapabilityObject :=
  reg.bindings.lookup capabilityName

/-- Modelled from the spec: `register(capabilityName, implementation)`,
missing from the sources; "binds a name to an object; fails with
DuplicateCapability if the name is already bound". -/
def register (reg : CapabilityRegistry) (capabilityName : String)
    (implementation : CapabilityObject) : Except RegistryError CapabilityRegistry :=
  match reg.bound capabilityName with
  | some _ => .error .DuplicateCapability
  | none => .ok { bindings := (capabilityName, implementation) :: reg.bindings }

/-- Modelled from the spec: `resolve(capabilityName, methodName)`, missing
from the sources; "returns a callable bound method or fails with
UnknownCapability / UnknownMethod". -/
def resolve (reg : CapabilityRegistry) (capabilityName methodName : String) :
    Except RegistryError Method :=
  match reg.bound capabilityName with
  | none => .error .UnknownCapability
  | some implementation =>
    match implementation.methods.lookup methodName with
    | none => .error .UnknownMethod
    | some m => .ok m

/-- A capability with one method, `Echo`, that returns its request. -/
def echoPlugin : CapabilityObject :=
  { name := "HostPlugin", methods := [("Echo", fun request _ => .ok request)] }

/-- Another capability object, without methods. -/
def emptyPlugin : CapabilityObject :=
  { name := "HostPlugin", methods := [] }

/-! ## Basic facts -/

theorem Sprintln_pair (a b : String) : fmt.Sprintln [a, b] = a ++ " " ++ b ++ "\n" := rfl

/-- A run of `main` in which the serving routine returns `nil`. -/
theorem run_main_nil {P : Type} (zero : P) (ServePlugin : ServeRoutine P) (w : World P)
    (h : (ServePlugin w.heap.length (w.alloc zero)).2 = none) :
    run (main zero ServePlugin) w =
      { status := 0
        world := (ServePlugin w.heap.length (w.alloc zero)).1
        trace := [.alloc w.heap.length zero, .call w.heap.length none, .exit 0] } := by
  simp [run, main, new, callServePlugin, os.Exit, h, bind, ExceptT.bind, ExceptT.mk,
    ExceptT.bindCont, StateT.bind, pure, ExceptT.pure, StateT.pure]

/-- A run of `main` in which the serving routine returns the error `e`. -/
theorem run_main_err {P : Type} (zero : P) (ServePlugin : ServeRoutine P) (w : World P)
    (e : GoError) (h : (ServePlugin w.heap.length (w.alloc zero)).2 = some e) :
    run (main zero ServePlugin) w =
      { status := 1
        world := (ServePlugin w.heap.length (w.alloc zero)).1.write .stdout (diagnostic e)
        trace := [.alloc w.heap.length zero, .call w.heap.length (some e),
                  .write .stdout (diagnostic e), .exit 1] } := by
  simp only [diagnostic, ← Sprintln_pair]
  simp [run, main, new, callServePlugin, fmt.Println, os.Exit, h, bind, ExceptT.bind,
    ExceptT.mk, ExceptT.bindCont, StateT.bind, pure, ExceptT.pure, StateT.pure]

/-- The result recorded in the trace is the one the serving routine returned
for the freshly allocated implementation. -/
theorem call_mem_trace {P : Type} (zero : P) (ServePlugin : ServeRoutine P) (w : World P)
    (p : Ptr) (err : Option GoError)
    (h : Action.call p err ∈ (run (main zero ServePlugin) w).trace) :
    p = w.heap.length ∧ (ServePlugin w.heap.length (w.alloc zero)).2 = err := by
  rcases hr : (ServePlugin w.heap.length (w.alloc zero)).2 with _ | e
  · rw [run_main_nil zero ServePlugin w hr] at h
    simp at h
    exact ⟨h.1, h.2.symm⟩
  · rw [run_main_err zero ServePlugin w e hr] at h
    simp at h
    exact ⟨h.1, h.2.symm⟩

end GooglePluginMain

namespace GooglePluginMain

/-! ## The entry point: exit status and output -/

/-- C1: in a run of `main` in which the serving routine returned `err`, the
process is ended by `os.Exit` with a status that is 0 exactly when `err` is
nil and 1 exactly when `err` is non-nil; no other status occurs. -/
theorem main_exit_status {P : Type} (zero : P) (ServePlugin : ServeRoutine P) (w : World P)
    (p : Ptr) (err : Option GoError)
    (h : Action.call p err ∈ (run (main zero ServePlugin) w).trace) :
    Action.exit (run (main zero ServePlugin) w).status ∈ (run (main zero ServePlugin) w).trace ∧
    ((run (main zero ServePlugin) w).status = 0 ↔ err = none) ∧
    ((run (main zero ServePlugin) w).status = 1 ↔ err ≠ none) ∧
    ((run (main zero ServePlugin) w).status = 0 ∨ (run (main zero ServePlugin) w).status = 1) := by
  obtain ⟨-, hr⟩ := call_mem_trace zero ServePlugin w p err h
  cases err with
  | none => rw [run_main_nil zero ServePlugin w hr]; simp
  | some e => rw [run_main_err zero ServePlugin w e hr]; simp

theorem main_exit_status_witness :
    Action.call 0 (some listenerClosed) ∈ (run (main () serveUnavailable) sampleWorld).trace ∧
    (run (main () serveUnavailable) sampleWorld).status = 1 :=
  ⟨by decide,
   (main_exit_status () serveUnavailable sampleWorld 0 (some listenerClosed)
      (by decide)).2.2.1.mpr (by decide)⟩

/-- C2 fails as stated: when the listener is closed before a client connects,
the serving routine returns an error, and the diagnostic is written to
standard output; nothing is written to standard error. -/
theorem diagnostic_not_on_stderr :
    Action.call 0 (some listenerClosed) ∈ (run (main () serveUnavailable) sampleWorld).trace ∧
    (Stream.stderr, diagnostic listenerClosed) ∉
      writes (run (main () serveUnavailable) sampleWorld).trace ∧
    (Stream.stdout, diagnostic listenerClosed) ∈
      writes (run (main () serveUnavailable) sampleWorld).trace ∧
    (run (main () serveUnavailable) sampleWorld).world.stderr = "" ∧
    (run (main () serveUnavailable) sampleWorld).world.stdout =
      "Error serving plugin listener closed\n" := by
  decide

/-- C2, amended: for every non-nil error `e` returned by the serving routine,
the diagnostic that `main` prints is written to standard output, and `main`
writes nothing to standard error: the bytes on standard error are those the
serving routine left there. -/
theorem diagnostic_on_stdout {P : Type} (zero : P) (ServePlugin : ServeRoutine P)
    (w : World P) (p : Ptr) (e : GoError)
    (h : Action.call p (some e) ∈ (run (main zero ServePlugin) w).trace) :
    (Stream.stdout, diagnostic e) ∈ writes (run (main zero ServePlugin) w).trace ∧
    (∀ bytes, (Stream.stderr, bytes) ∉ writes (run (main zero ServePlugin) w).trace) ∧
    (run (main zero ServePlugin) w).world.stderr =
      (ServePlugin w.heap.length (w.alloc zero)).1.stderr := by
  obtain ⟨-, hr⟩ := call_mem_trace zero ServePlugin w p (some e) h
  rw [run_main_err zero ServePlugin w e hr]
  simp [writes, World.write]

theorem diagnostic_on_stdout_witness :
    Action.call 2 (some listenerClosedWrapped) ∈
      (run (main () serveUnavailableWrapped) otherWorld).trace ∧
    (Stream.stdout, "Error serving plugin listener closed\n") ∈
      writes (run (main () serveUnavailableWrapped) otherWorld).trace :=
  ⟨by decide,
   (diagnostic_on_stdout () serveUnavailableWrapped otherWorld 2 listenerClosedWrapped
      (by decide)).1⟩

/-- C3: for every non-nil error `e` returned by the serving routine, `main`
performs exactly one write, of the text "Error serving plugin", a single
space, the text of `e` and a newline; the write is immediately followed by
`os.Exit(1)`, which is the last action of `main`, and the status is 1. -/
theorem diagnostic_once_before_exit {P : Type} (zero : P) (ServePlugin : ServeRoutine P)
    (w : World P) (p : Ptr) (e : GoError)
    (h : Action.call p (some e) ∈ (run (main zero ServePlugin) w).trace) :
    (∃ pre, (run (main zero ServePlugin) w).trace =
        pre ++ [Action.write Stream.stdout ("Error serving plugin" ++ " " ++ e.text ++ "\n"),
                Action.exit 1] ∧ writes pre = []) ∧
    writes (run (main zero ServePlugin) w).trace =
      [(Stream.stdout, "Error serving plugin" ++ " " ++ e.text ++ "\n")] ∧
    (run (main zero ServePlugin) w).status = 1 := by
  obtain ⟨-, hr⟩ := call_mem_trace zero ServePlugin w p (some e) h
  rw [run_main_err zero ServePlugin w e hr]
  refine ⟨⟨[.alloc w.heap.length zero, .call w.heap.length (some e)], ?_, ?_⟩, ?_, ?_⟩
  · simp [diagnostic]
  · simp [writes]
  · simp [writes, diagnostic]
  · rfl

theorem diagnostic_once_before_exit_witness :
    Action.call 0 (some { dynType := "*net.OpError",
                          text := "accept unix /tmp/plugin4242: broken" }) ∈
      (run (main () serveBroken) sampleWorld).trace ∧
    writes (run (main () serveBroken) sampleWorld).trace =
      [(Stream.stdout, "Error serving plugin accept unix /tmp/plugin4242: broken\n")] :=
  ⟨by decide,
   (diagnostic_once_before_exit () serveBroken sampleWorld 0
      { dynType := "*net.OpError", text := "accept unix /tmp/plugin4242: broken" }
      (by decide)).2.1⟩

/-- C4 fails as stated: a serving routine writes the handshake line and then
returns an error; `main` itself writes to standard output, whose bytes are then
not those the serving routine wrote. -/
theorem stdout_touched_on_error :
    (serveBroken 0 (sampleWorld.alloc ())).1.stdout = "1|1|unix|/tmp/plugin4242|grpc\n" ∧
    (run (main () serveBroken) sampleWorld).world.stdout =
      "1|1|unix|/tmp/plugin4242|grpc\n" ++
        "Error serving plugin accept unix /tmp/plugin4242: broken\n" ∧
    (run (main () serveBroken) sampleWorld).world.stdout ≠
      (serveBroken 0 (sampleWorld.alloc ())).1.stdout ∧
    writes (run (main () serveBroken) sampleWorld).trace ≠ [] := by
  decide

/-- C4, amended: when serving ends without an error the entry point writes
nothing, and standard output holds exactly the bytes the serving routine left
there; when serving ends with an error `e`, standard output holds those bytes
followed by the one diagnostic line of `main`, its only write. -/
theorem stdout_after_main {P : Type} (zero : P) (ServePlugin : ServeRoutine P) (w : World P) :
    ((ServePlugin w.heap.length (w.alloc zero)).2 = none →
      (run (main zero ServePlugin) w).world.stdout =
        (ServePlugin w.heap.length (w.alloc zero)).1.stdout ∧
      writes (run (main zero ServePlugin) w).trace = []) ∧
    (∀ e, (ServePlugin w.heap.length (w.alloc zero)).2 = some e →
      (run (main zero ServePlugin) w).world.stdout =
        (ServePlugin w.heap.length (w.alloc zero)).1.stdout ++ diagnostic e ∧
      writes (run (main zero ServePlugin) w).trace = [(Stream.stdout, diagnostic e)]) := by
  constructor
  · intro hr
    rw [run_main_nil zero ServePlugin w hr]
    simp [writes]
  · intro e hr
    rw [run_main_err zero ServePlugin w e hr]
    simp [writes, World.write]

theorem stdout_after_main_witness :
    (run (main () serveClean) sampleWorld).world.stdout = "1|1|unix|/tmp/plugin4242|grpc\n" ∧
    writes (run (main () serveClean) sampleWorld).trace = [] :=
  (stdout_after_main () serveClean sampleWorld).1 (by decide)

/-- C5: every run of `main` begins by allocating one zero-valued
implementation at a fresh address and calling the serving routine on that
address, in the world where the address holds the zero value; there is no
other allocation and no other call, and every write or exit of `main` comes
after the call. -/
theorem main_serves_once {P : Type} (zero : P) (ServePlugin : ServeRoutine P) (w : World P) :
    ∃ p err rest,
      (run (main zero ServePlugin) w).trace = Action.alloc p zero :: Action.call p err :: rest ∧
      ¬ p < w.heap.length ∧
      (w.alloc zero).heap[p]? = some zero ∧
      err = (ServePlugin p (w.alloc zero)).2 ∧
      allocs (run (main zero ServePlugin) w).trace = [(p, zero)] ∧
      calls (run (main zero ServePlugin) w).trace = [(p, err)] ∧
      allocs rest = [] ∧ calls rest = [] := by
  rcases hr : (ServePlugin w.heap.length (w.alloc zero)).2 with _ | e
  · refine ⟨w.heap.length, none, [.exit 0], ?_, Nat.lt_irrefl _, ?_, hr.symm, ?_⟩
    · rw [run_main_nil zero ServePlugin w hr]
    · simp [World.alloc]
    · rw [run_main_nil zero ServePlugin w hr]
      simp [allocs, calls]
  · refine ⟨w.heap.length, some e, [.write .stdout (diagnostic e), .exit 1], ?_,
      Nat.lt_irrefl _, ?_, hr.symm, ?_⟩
    · rw [run_main_err zero ServePlugin w e hr]
    · simp [World.alloc]
    · rw [run_main_err zero ServePlugin w e hr]
      simp [allocs, calls]

/-- C8: two runs of `main` (any worlds, any serving routines, any
implementations) in which the serving routine returns results of the same
textual form end with the same exit status and perform the same writes. -/
theorem main_depends_only_on_error {P Q : Type} (zero₁ : P) (zero₂ : Q)
    (serve₁ : ServeRoutine P) (serve₂ : ServeRoutine Q) (w₁ : World P) (w₂ : World Q)
    (p₁ p₂ : Ptr) (err₁ err₂ : Option GoError)
    (h₁ : Action.call p₁ err₁ ∈ (run (main zero₁ serve₁) w₁).trace)
    (h₂ : Action.call p₂ err₂ ∈ (run (main zero₂ serve₂) w₂).trace)
    (hsame : err₁.map GoError.text = err₂.map GoError.text) :
    (run (main zero₁ serve₁) w₁).status = (run (main zero₂ serve₂) w₂).status ∧
    writes (run (main zero₁ serve₁) w₁).trace = writes (run (main zero₂ serve₂) w₂).trace := by
  obtain ⟨-, hr₁⟩ := call_mem_trace zero₁ serve₁ w₁ p₁ err₁ h₁
  obtain ⟨-, hr₂⟩ := call_mem_trace zero₂ serve₂ w₂ p₂ err₂ h₂
  cases err₁ with
  | none =>
    cases err₂ with
    | none =>
      rw [run_main_nil zero₁ serve₁ w₁ hr₁, run_main_nil zero₂ serve₂ w₂ hr₂]
      simp [writes]
    | some e₂ => simp at hsame
  | some e₁ =>
    cases err₂ with
    | none => simp at hsame
    | some e₂ =>
      have ht : e₁.text = e₂.text := by simpa using hsame
      rw [run_main_err zero₁ serve₁ w₁ e₁ hr₁, run_main_err zero₂ serve₂ w₂ e₂ hr₂]
      simp [writes, diagnostic, ht]

theorem main_depends_only_on_error_witness :
    (Action.call 0 (some listenerClosed) ∈ (run (main () serveUnavailable) sampleWorld).trace ∧
     Action.call 2 (some listenerClosedWrapped) ∈
       (run (main () serveUnavailableWrapped) otherWorld).trace ∧
     (some listenerClosed).map GoError.text = (some listenerClosedWrapped).map GoError.text) ∧
    ((run (main () serveUnavailable) sampleWorld).status =
       (run (main () serveUnavailableWrapped) otherWorld).status ∧
     writes (run (main () serveUnavailable) sampleWorld).trace =
       writes (run (main () serveUnavailableWrapped) otherWorld).trace) :=
  ⟨⟨by decide, by decide, by decide⟩,
   main_depends_only_on_error () () serveUnavailable serveUnavailableWrapped sampleWorld
     otherWorld 0 2 (some listenerClosed) (some listenerClosedWrapped)
     (by decide) (by decide) (by decide)⟩

/-- C9: in a run of `main` in which the serving routine returned `err`: if
`err` is nil then `main` performs no write, leaves both output streams as the
serving routine left them and exits with status 0; a write is performed
exactly when `err` is non-nil, and `os.Exit(0)` runs exactly when `err` is
nil. -/
theorem no_error_no_output {P : Type} (zero : P) (ServePlugin : ServeRoutine P) (w : World P)
    (p : Ptr) (err : Option GoError)
    (h : Action.call p err ∈ (run (main zero ServePlugin) w).trace) :
    (err = none →
      writes (run (main zero ServePlugin) w).trace = [] ∧
      (run (main zero ServePlugin) w).world = (ServePlugin w.heap.length (w.alloc zero)).1 ∧
      (run (main zero ServePlugin) w).status = 0) ∧
    (writes (run (main zero ServePlugin) w).trace ≠ [] ↔ err ≠ none) ∧
    (Action.exit 0 ∈ (run (main zero ServePlugin) w).trace ↔ err = none) := by
  obtain ⟨-, hr⟩ := call_mem_trace zero ServePlugin w p err h
  cases err with
  | none => rw [run_main_nil zero ServePlugin w hr]; simp [writes]
  | some e => rw [run_main_err zero ServePlugin w e hr]; simp [writes]

theorem no_error_no_output_witness :
    Action.call 0 none ∈ (run (main () serveClean) sampleWorld).trace ∧
    (writes (run (main () serveClean) sampleWorld).trace = [] ∧
     (run (main () serveClean) sampleWorld).world = (serveClean 0 (sampleWorld.alloc ())).1 ∧
     (run (main () serveClean) sampleWorld).status = 0) :=
  ⟨by decide,
   (no_error_no_output () serveClean sampleWorld 0 none (by decide)).1 rfl⟩

/-! ## The capability registry -/

/-- C6: when a registration succeeds, the registry binds the capability name
to the very implementation that was registered, `resolve` answers with that
implementation's methods, and any further `register` under the same name fails
with `DuplicateCapability`. -/
theorem resolve_after_register (reg reg₁ : CapabilityRegistry) (capabilityName : String)
    (implementation : CapabilityObject)
    (h : register reg capabilityName implementation = .ok reg₁) :
    reg₁.bound capabilityName = some implementation ∧
    (∀ methodName,
      resolve reg₁ capabilityName methodName =
        match implementation.methods.lookup methodName with
        | none => .error .UnknownMethod
        | some m => .ok m) ∧
    (∀ other, register reg₁ capabilityName other = .error .DuplicateCapability) := by
  have hb : reg₁.bound capabilityName = some implementation := by
    unfold register at h
    split at h
    · cases h
    · cases h
      simp [CapabilityRegistry.bound, List.lookup]
  refine ⟨hb, ?_, ?_⟩
  · intro methodName
    simp only [resolve, hb]
  · intro other
    simp only [register, hb]

theorem resolve_after_register_witness :
    register { bindings := [] } "HostPlugin" echoPlugin =
      .ok { bindings := [("HostPlugin", echoPlugin)] } ∧
    resolve { bindings := [("HostPlugin", echoPlugin)] } "HostPlugin" "Echo" =
      .ok (fun request _ => .ok request) ∧
    register { bindings := [("HostPlugin", echoPlugin)] } "HostPlugin" emptyPlugin =
      .error .DuplicateCapability :=
  ⟨rfl,
   (resolve_after_register { bindings := [] } { bindings := [("HostPlugin", echoPlugin)] }
      "HostPlugin" echoPlugin rfl).2.1 "Echo",
   (resolve_after_register { bindings := [] } { bindings := [("HostPlugin", echoPlugin)] }
      "HostPlugin" echoPlugin rfl).2.2 emptyPlugin⟩

end GooglePluginMain
